import Mathlib

/-!
Shallow embedding of `src/widget/datetime_widget.py` (classes `DatetimeVar`
and `DatetimeEntry`).  Entry widgets are modelled by their text contents
(`Fields`); the bound observable (`DatetimeVar` / tkinter variable) by the
string it stores.  Python built-ins used by the widget (`str` on a
non-negative int, `str.zfill`, `str.isdigit`, `int` on a digit string,
slicing `s[-2:]`) and the two `datetime` library functions the widget calls
(`datetime.strptime` with format `"%Y-%m-%d %H:%M:%S"`, `datetime.isoformat`)
are modelled explicitly below.
-/

set_option maxRecDepth 4000

/-- Model of Python `str` on a non-negative `int`: decimal digits,
accumulator-style with fuel (the fuel `n + 1` always suffices). -/
def decDigitsCore : Nat → Nat → List Char → List Char
  | 0, _, ds => ds
  | fuel + 1, n, ds =>
    if n < 10 then Nat.digitChar n :: ds
    else decDigitsCore fuel (n / 10) (Nat.digitChar (n % 10) :: ds)

/-- Model of Python `str(n)` for a non-negative integer `n`. -/
def pyStr (n : Nat) : String :=
  ⟨decDigitsCore (n + 1) n []⟩

/-- Model of Python `s.zfill(w)` on a digit string (no sign handling is
needed: the widget only applies it to digit strings): left-pad with the
character 0 up to width `w`. -/
def pyZfill (w : Nat) (s : String) : String :=
  ⟨List.replicate (w - s.data.length) '0' ++ s.data⟩

/-- Model of Python `s.isdigit()` for ASCII content: non-empty and all
decimal digits. -/
def isdigitStr (s : String) : Bool :=
  !s.data.isEmpty && s.data.all Char.isDigit

/-- Value of a list of decimal digit characters, most significant first. -/
def digitsVal (ds : List Char) : Nat :=
  ds.foldl (fun a c => 10 * a + (c.toNat - 48)) 0

/-- Model of Python `int(s)` on a digit string (the widget only calls `int`
on strings that passed `isdigit` or on the literal `1`). -/
def pyInt (s : String) : Nat :=
  digitsVal s.data

/-- Model of Python `s[-2:]`: the last two characters (the whole string if
it is shorter). -/
def lastTwo (s : String) : String :=
  ⟨s.data.drop (s.data.length - 2)⟩

/-- The six entry widgets of `DatetimeEntry`, modelled by their text
contents. -/
structure Fields where
  year : String
  month : String
  day : String
  hour : String
  minute : String
  second : String
deriving DecidableEq, Repr

/-- A structured date-time value (model of Python `datetime.datetime`,
restricted to the six components the widget uses). -/
structure DateTime where
  year : Nat
  month : Nat
  day : Nat
  hour : Nat
  minute : Nat
  second : Nat
deriving DecidableEq, Repr

/-- The key naming one of the six entries. -/
inductive Key where
  | year | month | day | hour | minute | second
deriving DecidableEq, Repr

/-- `self.entries[key].get()`. -/
def getField (f : Fields) : Key → String
  | .year => f.year
  | .month => f.month
  | .day => f.day
  | .hour => f.hour
  | .minute => f.minute
  | .second => f.second

/-- `self.entries[key].delete(0, "end"); self.entries[key].insert(0, v)`. -/
def setField (f : Fields) (k : Key) (v : String) : Fields :=
  match k with
  | .year => { f with year := v }
  | .month => { f with month := v }
  | .day => { f with day := v }
  | .hour => { f with hour := v }
  | .minute => { f with minute := v }
  | .second => { f with second := v }

/-- `DatetimeEntry.days_in_month` (lines 210-229): 30 for April, June,
September, November; February by the leap rule; 31 otherwise. -/
def days_in_month (month year : Nat) : Nat :=
  if month = 4 ∨ month = 6 ∨ month = 9 ∨ month = 11 then 30
  else if month = 2 then
    if (year % 4 = 0 ∧ year % 100 ≠ 0) ∨ year % 400 = 0 then 29 else 28
  else 31

/-- Model of `int(self.entries[k].get() or 1)`: the Python expression
`s or 1` is `1` when `s` is empty, otherwise `s`; `int` then parses a digit
string and raises `ValueError` (here: `none`) on anything else. -/
def intOrOne (s : String) : Option Nat :=
  if s = "" then some 1
  else if isdigitStr s then some (pyInt s) else none

/-- `DatetimeEntry.get_min_max_values` (lines 170-190).  The `day` branch
reads the current month and year entries (`none` models the uncaught
`ValueError` when one of them is neither empty nor a digit string). -/
def get_min_max_values (f : Fields) (key : Key) : Option (Nat × Nat) :=
  match key with
  | .hour => some (0, 23)
  | .minute => some (0, 59)
  | .second => some (0, 59)
  | .month => some (1, 12)
  | .day =>
    match intOrOne f.month, intOrOne f.year with
    | some m, some y => some (1, days_in_month m y)
    | _, _ => none
  | .year => some (1, 9999)

/-- `DatetimeEntry.validate_digit` (lines 192-208): the keystroke
validation callback, deciding whether the proposed text `P` for the entry
`key` is accepted. -/
def validate_digit (f : Fields) (key : Key) (P : String) : Option Bool :=
  if isdigitStr P = true ∨ P = "" then
    match get_min_max_values f key with
    | some (mn, mx) => some (decide (P = "" ∨ (mn ≤ pyInt P ∧ pyInt P ≤ mx)))
    | none => none
  else some false

/-- Models tkinter's key-validation protocol for an entry created with
`validate='key'`: a proposed edit is applied exactly when the registered
`validatecommand` (`validate_digit`) returns true; otherwise the prior
text is retained. -/
def applyKeystroke (f : Fields) (key : Key) (P : String) : Fields :=
  if validate_digit f key P = some true then setField f key P else f

/-- `DatetimeEntry.increment` (lines 153-168): arrow-key handler adding
`step` (±1) to the field value, clamped to the field bounds, written back
as `str(value).zfill(2)`; a non-digit current content is a no-op. -/
def increment (f : Fields) (key : Key) (step : Int) : Option Fields :=
  let value := getField f key
  if isdigitStr value = true then
    match get_min_max_values f key with
    | some (mn, mx) =>
      let v : Int := (pyInt value : Int) + step
      let w : Int := max (mn : Int) (min v (mx : Int))
      some (setField f key (pyZfill 2 (pyStr w.toNat)))
    | none => none
  else some f

/-- `DatetimeEntry.revalidate_day` (lines 231-246): on leaving the month
or year entry, clamp the day entry to `days_in_month` of the current
month/year contents. -/
def revalidate_day (f : Fields) : Option Fields :=
  if isdigitStr f.day = true then
    match intOrOne f.month, intOrOne f.year with
    | some m, some y =>
      let maxDay := days_in_month m y
      if pyInt f.day > maxDay then
        some (setField f .day (pyZfill 2 (pyStr maxDay)))
      else some f
    | _, _ => none
  else some f

/-- The f-string composing the six entry contents (it appears verbatim
both in `DatetimeEntry.on_entry_change`, lines 266-270, and in
`DatetimeEntry.get_datetime`, lines 310-314): year unpadded, the other
five entries through `.zfill(2)`. -/
def compose_datetime_str (f : Fields) : String :=
  f.year ++ "-" ++ pyZfill 2 f.month ++ "-" ++ pyZfill 2 f.day ++ " " ++
    pyZfill 2 f.hour ++ ":" ++ pyZfill 2 f.minute ++ ":" ++ pyZfill 2 f.second

/-- `DatetimeEntry.get_datetime` (lines 303-314). -/
def get_datetime (f : Fields) : String :=
  compose_datetime_str f

/-- The entry-population loop of `DatetimeEntry.set_datetime`
(lines 288-293): every entry, the year included, receives
`str(value).zfill(2)`. -/
def set_entries (y m d h mi s : Nat) : Fields :=
  ⟨pyZfill 2 (pyStr y), pyZfill 2 (pyStr m), pyZfill 2 (pyStr d),
    pyZfill 2 (pyStr h), pyZfill 2 (pyStr mi), pyZfill 2 (pyStr s)⟩

/-- The hour/minute/second correction applied to one entry at the top of
`DatetimeEntry.on_entry_change` (lines 255-264): a digit value above 59
becomes `"59"`; otherwise a digit string longer than two characters is
replaced by its last two characters zero-filled. -/
def fixHMSField (value : String) : String :=
  if isdigitStr value = true ∧ pyInt value > 59 then "59"
  else if isdigitStr value = true ∧ value.data.length > 2 then
    pyZfill 2 (lastTwo value)
  else value

/-- The correction loop of `on_entry_change` over the hour, minute and
second entries (the three entries are independent, so the sequential loop
is a simultaneous update). -/
def correct_hms (f : Fields) : Fields :=
  { f with
    hour := fixHMSField f.hour
    minute := fixHMSField f.minute
    second := fixHMSField f.second }

/-- Reads a maximal run of at most `2` digits (model of the CPython
`_strptime` patterns for `%m`, `%d`, `%H`, `%M`, `%S`, which match one or
two digits; since every field here is followed by a non-digit delimiter or
the end of input, a longer maximal digit run makes the whole parse fail). -/
def readNum2 (cs : List Char) : Option (Nat × List Char) :=
  let p := cs.span Char.isDigit
  if p.1.length = 0 ∨ 2 < p.1.length then none
  else some (digitsVal p.1, p.2)

/-- Model of Python `datetime.strptime(s, "%Y-%m-%d %H:%M:%S")` returning
`none` for `ValueError`: `%Y` matches exactly four digits; month, day,
hour, minute, second match one or two digits; the numeric range checks are
those of the `_strptime` regular expressions together with the
`datetime` constructor (year ≥ 1, day ≤ days in month). -/
def strptimeYmdHMS (s : String) : Option DateTime :=
  let py := s.data.span Char.isDigit
  if py.1.length ≠ 4 then none else
  match py.2 with
  | '-' :: r2 =>
    match readNum2 r2 with
    | some (m, r3) =>
      match r3 with
      | '-' :: r4 =>
        match readNum2 r4 with
        | some (d, r5) =>
          match r5 with
          | ' ' :: r6 =>
            match readNum2 r6 with
            | some (h, r7) =>
              match r7 with
              | ':' :: r8 =>
                match readNum2 r8 with
                | some (mi, r9) =>
                  match r9 with
                  | ':' :: r10 =>
                    match readNum2 r10 with
                    | some (sec, r11) =>
                      if r11 = [] then
                        let y := digitsVal py.1
                        if 1 ≤ y ∧ 1 ≤ m ∧ m ≤ 12 ∧ 1 ≤ d ∧
                            d ≤ days_in_month m y ∧ h ≤ 23 ∧ mi ≤ 59 ∧
                            sec ≤ 59 then
                          some ⟨y, m, d, h, mi, sec⟩
                        else none
                      else none
                    | none => none
                  | _ => none
                | none => none
              | _ => none
            | none => none
          | _ => none
        | none => none
      | _ => none
    | none => none
  | _ => none

/-- Model of Python `datetime.isoformat()` on a value with zero
microseconds: `YYYY-MM-DDTHH:MM:SS`, the year zero-padded to four digits,
the other components to two, with the default separator, the character T. -/
def pyIsoformat (dt : DateTime) : String :=
  pyZfill 4 (pyStr dt.year) ++ "-" ++ pyZfill 2 (pyStr dt.month) ++ "-" ++
    pyZfill 2 (pyStr dt.day) ++ "T" ++ pyZfill 2 (pyStr dt.hour) ++ ":" ++
    pyZfill 2 (pyStr dt.minute) ++ ":" ++ pyZfill 2 (pyStr dt.second)

/-- `DatetimeVar.set` (lines 21-30) applied to a structured date-time
value: the value is converted with `isoformat()` and that string is what
the underlying tk variable stores. -/
def DatetimeVar_set_dt (dt : DateTime) : String :=
  pyIsoformat dt

/-- `DatetimeEntry.on_entry_change` (lines 248-274), for a widget with a
bound `textvariable` whose stored string is `var`: correct the
hour/minute/second entries, compose the date string, and on a successful
`strptime` store the parsed value (through `DatetimeVar_set_dt`); a parse
failure is caught by the `except ValueError: pass` and leaves the
variable untouched. -/
def on_entry_change (f : Fields) (var : String) : Fields × String :=
  let f2 := correct_hms f
  match strptimeYmdHMS (compose_datetime_str f2) with
  | some dt => (f2, DatetimeVar_set_dt dt)
  | none => (f2, var)

/-- `DatetimeEntry.update_entries` (lines 316-327): the structured value
read back from the textvariable is pushed into the six entries through
`set_datetime`, whose population loop is `set_entries`. -/
def update_entries (dt : DateTime) : Fields :=
  set_entries dt.year dt.month dt.day dt.hour dt.minute dt.second

/-- Spec-side definition (from the claim wording, not from the code): the
canonical date part `YYYY-MM-DD` with a four-digit zero-padded year. -/
def canonicalDatePart (y m d : Nat) : String :=
  pyZfill 4 (pyStr y) ++ "-" ++ pyZfill 2 (pyStr m) ++ "-" ++
    pyZfill 2 (pyStr d)

/-- Spec-side definition: the canonical time part `HH:MM:SS`. -/
def canonicalTimePart (h mi s : Nat) : String :=
  pyZfill 2 (pyStr h) ++ ":" ++ pyZfill 2 (pyStr mi) ++ ":" ++
    pyZfill 2 (pyStr s)

/-- Spec-side definition: the canonical string `YYYY-MM-DD HH:MM:SS`. -/
def canonicalDatetimeString (y m d h mi s : Nat) : String :=
  canonicalDatePart y m d ++ " " ++ canonicalTimePart h mi s

/-- Replace every space character by the character T. -/
def spaceToT (s : String) : String :=
  ⟨s.data.map (fun c => if c = ' ' then 'T' else c)⟩

example : days_in_month 2 2000 = 29 := by decide
example : days_in_month 2 1900 = 28 := by decide
example : pyStr 2024 = "2024" := by decide
example : pyZfill 2 (pyStr 5) = "05" := by decide
example : lastTwo "12345" = "45" := by decide
example : pyInt "059" = 59 := by decide
example : get_datetime (set_entries 2024 2 29 23 59 59) = "2024-02-29 23:59:59" := by decide
example : get_datetime (set_entries 5 1 1 0 0 0) = "05-01-01 00:00:00" := by decide
example : strptimeYmdHMS "2024-02-29 23:59:59" = some ⟨2024, 2, 29, 23, 59, 59⟩ := by decide
example : strptimeYmdHMS "2023-02-29 03:04:05" = none := by decide
example : strptimeYmdHMS "05-01-01 00:00:00" = none := by decide
example : strptimeYmdHMS "2023-2-9 3:4:5" = some ⟨2023, 2, 9, 3, 4, 5⟩ := by decide
example : pyIsoformat ⟨2024, 2, 29, 23, 59, 59⟩ = "2024-02-29T23:59:59" := by decide
example : spaceToT "2024-02-29 23:59:59" = "2024-02-29T23:59:59" := by decide
example : fixHMSField "075" = "59" := by decide
example : fixHMSField "0059" = "59" := by decide
example : fixHMSField "007" = "07" := by decide

theorem decDigitsCore_length (fuel : Nat) : ∀ n ds, n < fuel →
    (decDigitsCore fuel n ds).length = Nat.log 10 n + 1 + ds.length := by
  induction fuel with
  | zero => intro n ds h; omega
  | succ fuel ih =>
    intro n ds h
    by_cases h10 : n < 10
    · have hlog : Nat.log 10 n = 0 := Nat.log_eq_zero_iff.mpr (Or.inl h10)
      simp [decDigitsCore, h10, hlog]
      omega
    · have hn : 10 ≤ n := Nat.le_of_not_lt h10
      have hdiv : n / 10 < fuel :=
        Nat.lt_of_lt_of_le (Nat.div_lt_self (by omega) (by omega))
          (Nat.lt_succ_iff.mp h)
      have hpos : 0 < Nat.log 10 n := Nat.log_pos (by omega) hn
      have hbase := Nat.log_div_base 10 n
      simp only [decDigitsCore, if_neg h10]
      rw [ih (n / 10) (Nat.digitChar (n % 10) :: ds) hdiv]
      simp [hbase]
      omega

theorem pyStr_data_length (n : Nat) :
    (pyStr n).data.length = Nat.log 10 n + 1 := by
  have := decDigitsCore_length (n + 1) n [] (Nat.lt_succ_self n)
  simpa [pyStr] using this

theorem pyStr_data_length_of_ge {n b : Nat} (hb : 0 < b) (h : 10 ^ (b - 1) ≤ n) :
    b ≤ (pyStr n).data.length := by
  rw [pyStr_data_length]
  have hn : n ≠ 0 := by
    have hp : 0 < 10 ^ (b - 1) := pow_pos (by omega) _
    omega
  have := (Nat.pow_le_iff_le_log (by omega) hn).mp h
  omega

theorem pyZfill_eq_self {w : Nat} {s : String} (h : w ≤ s.data.length) :
    pyZfill w s = s := by
  cases s with
  | mk data => simp [pyZfill, Nat.sub_eq_zero_of_le h]

theorem pyZfill_data_length (w : Nat) (s : String) :
    (pyZfill w s).data.length = max w s.data.length := by
  simp [pyZfill]
  omega

theorem pyZfill_two_idem (s : String) :
    pyZfill 2 (pyZfill 2 s) = pyZfill 2 s := by
  apply pyZfill_eq_self
  rw [pyZfill_data_length]
  omega

theorem digitChar_isDigit {n : Nat} (h : n < 10) :
    (Nat.digitChar n).isDigit = true := by
  interval_cases n <;> decide

theorem decDigitsCore_digits (fuel : Nat) : ∀ n ds,
    (∀ c ∈ ds, c.isDigit = true) →
    ∀ c ∈ decDigitsCore fuel n ds, c.isDigit = true := by
  induction fuel with
  | zero => intro n ds hds; simpa [decDigitsCore] using hds
  | succ fuel ih =>
    intro n ds hds c hc
    by_cases h10 : n < 10
    · simp only [decDigitsCore, if_pos h10] at hc
      rcases List.mem_cons.mp hc with h | h
      · subst h; exact digitChar_isDigit h10
      · exact hds c h
    · simp only [decDigitsCore, if_neg h10] at hc
      refine ih (n / 10) (Nat.digitChar (n % 10) :: ds) ?_ c hc
      intro a ha
      rcases List.mem_cons.mp ha with h | h
      · subst h; exact digitChar_isDigit (Nat.mod_lt n (by omega))
      · exact hds a h

theorem pyStr_digits (n : Nat) : ∀ c ∈ (pyStr n).data, c.isDigit = true := by
  intro c hc
  exact decDigitsCore_digits (n + 1) n [] (by simp) c hc

theorem pyZfill_digits (w : Nat) {s : String}
    (h : ∀ c ∈ s.data, c.isDigit = true) :
    ∀ c ∈ (pyZfill w s).data, c.isDigit = true := by
  intro c hc
  simp only [pyZfill] at hc
  rcases List.mem_append.mp hc with h0 | h0
  · rw [List.eq_of_mem_replicate h0]; decide
  · exact h c h0

theorem spaceToT_append (a b : String) :
    spaceToT (a ++ b) = spaceToT a ++ spaceToT b := by
  cases a with
  | mk la =>
    cases b with
    | mk lb =>
      show String.mk ((la ++ lb).map _) = String.mk (la.map _ ++ lb.map _)
      rw [List.map_append]

theorem spaceToT_of_digits {s : String}
    (h : ∀ c ∈ s.data, c.isDigit = true) : spaceToT s = s := by
  cases s with
  | mk l =>
    show String.mk (l.map _) = String.mk l
    congr 1
    rw [show l = l.map id by simp]
    rw [List.map_map]
    apply List.map_congr_left
    intro a ha
    have hd : a.isDigit = true := h a (by simpa using ha)
    have : a ≠ ' ' := by
      intro h0
      rw [h0] at hd
      exact absurd hd (by decide)
    simp [this]

theorem validate_digit_eq_true_iff (f : Fields) (key : Key) (P : String)
    (mn mx : Nat) (h : get_min_max_values f key = some (mn, mx)) :
    validate_digit f key P = some true ↔
      (P = "" ∨ (isdigitStr P = true ∧ mn ≤ pyInt P ∧ pyInt P ≤ mx)) := by
  unfold validate_digit
  by_cases hP : isdigitStr P = true ∨ P = ""
  · rw [if_pos hP, h]
    simp only [Option.some.injEq, decide_eq_true_eq]
    constructor
    · rintro (he | hb)
      · exact Or.inl he
      · rcases hP with hd | he
        · exact Or.inr ⟨hd, hb⟩
        · exact Or.inl he
    · rintro (he | ⟨_, hb⟩)
      · exact Or.inl he
      · exact Or.inr hb
  · rw [if_neg hP]
    push_neg at hP
    obtain ⟨hd, he⟩ := hP
    simp [hd, he]

theorem increment_digit_eq {f : Fields} {key : Key} {step : Int}
    {mn mx : Nat} (h : get_min_max_values f key = some (mn, mx))
    (hd : isdigitStr (getField f key) = true) (hmn : mn ≤ mx) :
    ∃ v : Nat,
      increment f key step = some (setField f key (pyZfill 2 (pyStr v))) ∧
      mn ≤ v ∧ v ≤ mx ∧
      (v : Int) =
        max (mn : Int) (min ((pyInt (getField f key) : Int) + step)
          (mx : Int)) := by
  have h1 : (mn : Int) ≤
      max (mn : Int) (min ((pyInt (getField f key) : Int) + step)
        (mx : Int)) := le_max_left _ _
  have h2 : max (mn : Int) (min ((pyInt (getField f key) : Int) + step)
      (mx : Int)) ≤ (mx : Int) :=
    max_le (by exact_mod_cast hmn) (min_le_right _ _)
  refine ⟨(max (mn : Int) (min ((pyInt (getField f key) : Int) + step)
    (mx : Int))).toNat, ?_, by omega, by omega, ?_⟩
  · simp [increment, hd, h]
  · rw [Int.toNat_of_nonneg (by omega)]

/-- C3: keystroke validation accepts a proposal exactly when it is empty
or an all-digit string whose value lies within the field bounds; a
rejected proposal keeps the prior text, an accepted one replaces it; the
day bound is computed from the current month and year entries, each
defaulting to 1 when empty. -/
theorem validate_digit_spec (f : Fields) (key : Key) (P : String)
    (mn mx : Nat) (h : get_min_max_values f key = some (mn, mx)) :
    (validate_digit f key P = some true ↔
      (P = "" ∨ (isdigitStr P = true ∧ mn ≤ pyInt P ∧ pyInt P ≤ mx))) ∧
    (validate_digit f key P ≠ some true → applyKeystroke f key P = f) ∧
    (validate_digit f key P = some true →
      applyKeystroke f key P = setField f key P) ∧
    ((f.month = "" ∨ isdigitStr f.month = true) →
      (f.year = "" ∨ isdigitStr f.year = true) →
      get_min_max_values f .day =
        some (1, days_in_month (if f.month = "" then 1 else pyInt f.month)
          (if f.year = "" then 1 else pyInt f.year))) := by
  refine ⟨validate_digit_eq_true_iff f key P mn mx h, ?_, ?_, ?_⟩
  · intro hne
    simp [applyKeystroke, hne]
  · intro heq
    simp [applyKeystroke, heq]
  · intro hm hy
    rcases hm with hm | hm
    · rcases hy with hy | hy
      · simp [get_min_max_values, intOrOne, hm, hy]
      · have hy0 : f.year ≠ "" := by
          intro h0
          rw [h0] at hy
          exact absurd hy (by decide)
        simp [get_min_max_values, intOrOne, hm, hy, hy0]
    · have hm0 : f.month ≠ "" := by
        intro h0
        rw [h0] at hm
        exact absurd hm (by decide)
      rcases hy with hy | hy
      · simp [get_min_max_values, intOrOne, hm, hy, hm0]
      · have hy0 : f.year ≠ "" := by
          intro h0
          rw [h0] at hy
          exact absurd hy (by decide)
        simp [get_min_max_values, intOrOne, hm, hy, hm0, hy0]

theorem validate_digit_spec_witness :
    get_min_max_values ⟨"", "", "", "", "", ""⟩ .hour = some (0, 23) ∧
    ((validate_digit ⟨"", "", "", "", "", ""⟩ .hour "7" = some true ↔
      ("7" = "" ∨ (isdigitStr "7" = true ∧ 0 ≤ pyInt "7" ∧ pyInt "7" ≤ 23))) ∧
     (validate_digit ⟨"", "", "", "", "", ""⟩ .hour "7" ≠ some true →
       applyKeystroke ⟨"", "", "", "", "", ""⟩ .hour "7" =
         ⟨"", "", "", "", "", ""⟩) ∧
     (validate_digit ⟨"", "", "", "", "", ""⟩ .hour "7" = some true →
       applyKeystroke ⟨"", "", "", "", "", ""⟩ .hour "7" =
         setField ⟨"", "", "", "", "", ""⟩ .hour "7") ∧
     ((("" : String) = "" ∨ isdigitStr "" = true) →
       (("" : String) = "" ∨ isdigitStr "" = true) →
       get_min_max_values ⟨"", "", "", "", "", ""⟩ .day =
         some (1, days_in_month (if ("" : String) = "" then 1 else pyInt "")
           (if ("" : String) = "" then 1 else pyInt "")))) :=
  ⟨by decide, validate_digit_spec ⟨"", "", "", "", "", ""⟩ .hour "7" 0 23
    (by decide)⟩

/-- C6: the arrow-key handler adds the step to the digit content of the
field, clamps the result into the field bounds, and writes it back
zero-filled to width two; a non-digit content is a no-op. -/
theorem increment_spec (f : Fields) (key : Key) (step : Int) (mn mx : Nat)
    (h : get_min_max_values f key = some (mn, mx)) (hmn : mn ≤ mx) :
    (isdigitStr (getField f key) = false → increment f key step = some f) ∧
    (isdigitStr (getField f key) = true →
      ∃ v : Nat,
        increment f key step = some (setField f key (pyZfill 2 (pyStr v))) ∧
        mn ≤ v ∧ v ≤ mx ∧
        (v : Int) =
          max (mn : Int) (min ((pyInt (getField f key) : Int) + step)
            (mx : Int))) := by
  constructor
  · intro h0
    simp [increment, h0]
  · intro hd
    exact increment_digit_eq h hd hmn

theorem increment_spec_witness :
    get_min_max_values ⟨"2024", "02", "29", "23", "59", "59"⟩ .minute =
      some (0, 59) ∧ 0 ≤ 59 ∧
    ((isdigitStr "59" = false →
       increment ⟨"2024", "02", "29", "23", "59", "59"⟩ .minute 1 =
         some ⟨"2024", "02", "29", "23", "59", "59"⟩) ∧
     (isdigitStr "59" = true →
       ∃ v : Nat,
         increment ⟨"2024", "02", "29", "23", "59", "59"⟩ .minute 1 =
           some (setField ⟨"2024", "02", "29", "23", "59", "59"⟩ .minute
             (pyZfill 2 (pyStr v))) ∧
         0 ≤ v ∧ v ≤ 59 ∧
         (v : Int) = max (0 : Int) (min ((pyInt "59" : Int) + 1) (59 : Int)))) :=
  ⟨by decide, by decide,
    increment_spec ⟨"2024", "02", "29", "23", "59", "59"⟩ .minute 1 0 59
      (by decide) (by decide)⟩

/-- C10: the year bounds used by keystroke validation and by the arrow-key
handler are 1 and 9999: a non-empty proposal is accepted exactly when its
digit value lies in that interval, and an increment or decrement of a
digit year always lands inside it. -/
theorem year_bounds_spec (f : Fields) (P : String) (step : Int) :
    get_min_max_values f .year = some (1, 9999) ∧
    (validate_digit f .year P = some true ↔
      (P = "" ∨ (isdigitStr P = true ∧ 1 ≤ pyInt P ∧ pyInt P ≤ 9999))) ∧
    (isdigitStr f.year = true →
      ∃ v : Nat,
        increment f .year step =
          some (setField f .year (pyZfill 2 (pyStr v))) ∧
        1 ≤ v ∧ v ≤ 9999) := by
  refine ⟨rfl, validate_digit_eq_true_iff f .year P 1 9999 rfl, ?_⟩
  intro hd
  obtain ⟨v, hv, h1, h2, _⟩ :=
    @increment_digit_eq f .year step 1 9999 rfl hd (by omega)
  exact ⟨v, hv, h1, h2⟩

theorem year_bounds_spec_witness :
    get_min_max_values ⟨"9999", "12", "31", "23", "59", "59"⟩ .year =
      some (1, 9999) ∧
    ((validate_digit ⟨"9999", "12", "31", "23", "59", "59"⟩ .year "10000" =
        some true ↔
      ("10000" = "" ∨ (isdigitStr "10000" = true ∧ 1 ≤ pyInt "10000" ∧
        pyInt "10000" ≤ 9999))) ∧
     (isdigitStr "9999" = true →
       ∃ v : Nat,
         increment ⟨"9999", "12", "31", "23", "59", "59"⟩ .year 1 =
           some (setField ⟨"9999", "12", "31", "23", "59", "59"⟩ .year
             (pyZfill 2 (pyStr v))) ∧
         1 ≤ v ∧ v ≤ 9999)) :=
  year_bounds_spec ⟨"9999", "12", "31", "23", "59", "59"⟩ "10000" 1

/-- C1 counterexample: for the valid input year 5, month 1, day 1,
00:00:00, `set_datetime` followed by `get_datetime` yields
`05-01-01 00:00:00` — the year comes out `zfill(2)`-padded, which is not
the canonical four-digit `YYYY` rendering `0005-01-01 00:00:00`. -/
theorem set_get_roundtrip_counterexample :
    get_datetime (set_entries 5 1 1 0 0 0) = "05-01-01 00:00:00" ∧
      get_datetime (set_entries 5 1 1 0 0 0) ≠
        canonicalDatetimeString 5 1 1 0 0 0 := by
  constructor
  · decide
  · decide

/-- C1 (amended): for every valid input whose year is at least 1000 (so
that `str(year).zfill(2)` is already the full-width year), calling
`set_datetime` and then `get_datetime` returns the canonical string
`YYYY-MM-DD HH:MM:SS` for exactly those values. -/
theorem set_get_roundtrip (y m d h mi s : Nat) (hy : 1000 ≤ y)
    (hm1 : 1 ≤ m) (hm2 : m ≤ 12) (hd1 : 1 ≤ d)
    (hd2 : d ≤ days_in_month m y) (hh : h ≤ 23) (hmi : mi ≤ 59)
    (hs : s ≤ 59) :
    get_datetime (set_entries y m d h mi s) =
      canonicalDatetimeString y m d h mi s := by
  have hylen : 4 ≤ (pyStr y).data.length :=
    pyStr_data_length_of_ge (by omega) (by norm_num; omega)
  have h1 : pyZfill 2 (pyStr y) = pyStr y := pyZfill_eq_self (by omega)
  have h2 : pyZfill 4 (pyStr y) = pyStr y := pyZfill_eq_self (by omega)
  simp [get_datetime, compose_datetime_str, set_entries,
    canonicalDatetimeString, canonicalDatePart, canonicalTimePart, h1, h2,
    pyZfill_two_idem, String.append_assoc]

theorem set_get_roundtrip_witness :
    1000 ≤ 2024 ∧ 1 ≤ 2 ∧ 2 ≤ 12 ∧ 1 ≤ 29 ∧ 29 ≤ days_in_month 2 2024 ∧
      23 ≤ 23 ∧ 59 ≤ 59 ∧ 59 ≤ 59 ∧
      get_datetime (set_entries 2024 2 29 23 59 59) =
        canonicalDatetimeString 2024 2 29 23 59 59 :=
  ⟨by decide, by decide, by decide, by decide, by decide, by decide,
    by decide, by decide,
    set_get_roundtrip 2024 2 29 23 59 59 (by decide) (by decide) (by decide)
      (by decide) (by decide) (by decide) (by decide) (by decide)⟩

/-- C4: on commit, a composed string that fails to parse leaves the bound
observable unchanged (the ValueError is swallowed); the observable is
written exactly when the parse succeeds, and then it receives the stored
form of the parsed value. -/
theorem on_entry_change_spec (f : Fields) (var : String) :
    (strptimeYmdHMS (compose_datetime_str (correct_hms f)) = none →
      (on_entry_change f var).2 = var) ∧
    (∀ dt, strptimeYmdHMS (compose_datetime_str (correct_hms f)) = some dt →
      (on_entry_change f var).2 = DatetimeVar_set_dt dt) := by
  constructor
  · intro h
    simp [on_entry_change, h]
  · intro dt h
    simp [on_entry_change, h]

theorem on_entry_change_spec_witness :
    (strptimeYmdHMS (compose_datetime_str
        (correct_hms ⟨"2023", "02", "29", "23", "59", "59"⟩)) = none →
      (on_entry_change ⟨"2023", "02", "29", "23", "59", "59"⟩
        "2023-02-28T00:00:00").2 = "2023-02-28T00:00:00") ∧
    (∀ dt, strptimeYmdHMS (compose_datetime_str
        (correct_hms ⟨"2023", "02", "29", "23", "59", "59"⟩)) = some dt →
      (on_entry_change ⟨"2023", "02", "29", "23", "59", "59"⟩
        "2023-02-28T00:00:00").2 = DatetimeVar_set_dt dt) :=
  on_entry_change_spec ⟨"2023", "02", "29", "23", "59", "59"⟩
    "2023-02-28T00:00:00"

/-- C5: cross-field revalidation clamps a digit day entry exceeding the
day count of the current month/year contents (each defaulting to 1 when
empty) to that maximum, written zero-filled to width two, and leaves the
day entry unchanged otherwise. -/
theorem revalidate_day_spec (f : Fields) (m y : Nat)
    (hm : intOrOne f.month = some m) (hy : intOrOne f.year = some y) :
    (isdigitStr f.day = true → pyInt f.day > days_in_month m y →
      revalidate_day f =
        some (setField f .day (pyZfill 2 (pyStr (days_in_month m y))))) ∧
    (isdigitStr f.day = true → pyInt f.day ≤ days_in_month m y →
      revalidate_day f = some f) ∧
    (isdigitStr f.day = false → revalidate_day f = some f) := by
  refine ⟨?_, ?_, ?_⟩
  · intro h1 h2
    simp [revalidate_day, h1, hm, hy, h2]
  · intro h1 h2
    simp [revalidate_day, h1, hm, hy]
    omega
  · intro h1
    simp [revalidate_day, h1]

theorem revalidate_day_spec_witness :
    intOrOne "02" = some 2 ∧ intOrOne "2023" = some 2023 ∧
    ((isdigitStr "29" = true → pyInt "29" > days_in_month 2 2023 →
       revalidate_day ⟨"2023", "02", "29", "00", "00", "00"⟩ =
         some (setField ⟨"2023", "02", "29", "00", "00", "00"⟩ .day
           (pyZfill 2 (pyStr (days_in_month 2 2023))))) ∧
     (isdigitStr "29" = true → pyInt "29" ≤ days_in_month 2 2023 →
       revalidate_day ⟨"2023", "02", "29", "00", "00", "00"⟩ =
         some ⟨"2023", "02", "29", "00", "00", "00"⟩) ∧
     (isdigitStr "29" = false →
       revalidate_day ⟨"2023", "02", "29", "00", "00", "00"⟩ =
         some ⟨"2023", "02", "29", "00", "00", "00"⟩)) :=
  ⟨by decide, by decide,
    revalidate_day_spec ⟨"2023", "02", "29", "00", "00", "00"⟩ 2 2023
      (by decide) (by decide)⟩

/-- C9: the commit-time correction rewrites each of the hour, minute and
second entries by `fixHMSField` — a digit value above 59 becomes `"59"`, a
digit string longer than two characters (with value at most 59) becomes
its last two digits zero-filled — and touches nothing else. -/
theorem correct_hms_spec (f : Fields) (v : String) :
    (correct_hms f).year = f.year ∧ (correct_hms f).month = f.month ∧
    (correct_hms f).day = f.day ∧
    (correct_hms f).hour = fixHMSField f.hour ∧
    (correct_hms f).minute = fixHMSField f.minute ∧
    (correct_hms f).second = fixHMSField f.second ∧
    (isdigitStr v = true → pyInt v > 59 → fixHMSField v = "59") ∧
    (isdigitStr v = true → pyInt v ≤ 59 → v.data.length > 2 →
      fixHMSField v = pyZfill 2 (lastTwo v)) ∧
    (isdigitStr v = true → pyInt v ≤ 59 → v.data.length ≤ 2 →
      fixHMSField v = v) ∧
    (isdigitStr v = false → fixHMSField v = v) := by
  refine ⟨rfl, rfl, rfl, rfl, rfl, rfl, ?_, ?_, ?_, ?_⟩
  · intro h1 h2
    simp [fixHMSField, h1, h2]
  · intro h1 h2 h3
    have hc1 : ¬(isdigitStr v = true ∧ pyInt v > 59) :=
      fun hc => absurd hc.2 (by omega)
    simp [fixHMSField, hc1, h1, h3]
    rw [if_neg (by omega), if_pos (show (2 : Nat) < v.length from h3)]
  · intro h1 h2 h3
    have hc1 : ¬(isdigitStr v = true ∧ pyInt v > 59) :=
      fun hc => absurd hc.2 (by omega)
    have hc2 : ¬(isdigitStr v = true ∧ v.data.length > 2) :=
      fun hc => absurd hc.2 (by omega)
    simp [fixHMSField, hc1, hc2]
    intro _ hlen
    have hl : v.length = v.data.length := rfl
    omega
  · intro h1
    simp [fixHMSField, h1]

theorem correct_hms_spec_witness :
    (correct_hms ⟨"2024", "02", "29", "23", "075", "59"⟩).year = "2024" ∧
    (correct_hms ⟨"2024", "02", "29", "23", "075", "59"⟩).month = "02" ∧
    (correct_hms ⟨"2024", "02", "29", "23", "075", "59"⟩).day = "29" ∧
    (correct_hms ⟨"2024", "02", "29", "23", "075", "59"⟩).hour =
      fixHMSField "23" ∧
    (correct_hms ⟨"2024", "02", "29", "23", "075", "59"⟩).minute =
      fixHMSField "075" ∧
    (correct_hms ⟨"2024", "02", "29", "23", "075", "59"⟩).second =
      fixHMSField "59" ∧
    (isdigitStr "075" = true → pyInt "075" > 59 → fixHMSField "075" = "59") ∧
    (isdigitStr "075" = true → pyInt "075" ≤ 59 →
      ("075" : String).data.length > 2 →
      fixHMSField "075" = pyZfill 2 (lastTwo "075")) ∧
    (isdigitStr "075" = true → pyInt "075" ≤ 59 →
      ("075" : String).data.length ≤ 2 → fixHMSField "075" = "075") ∧
    (isdigitStr "075" = false → fixHMSField "075" = "075") :=
  correct_hms_spec ⟨"2024", "02", "29", "23", "075", "59"⟩ "075"

/-- C7 counterexample: pushing the structured value with year 5 into the
entries stores `"05"` in the year entry — the year is zero-padded to two
digits by the population loop, not rendered at its natural width `"5"`. -/
theorem update_entries_year_counterexample :
    (update_entries ⟨5, 1, 2, 3, 4, 6⟩).year = "05" ∧
      (update_entries ⟨5, 1, 2, 3, 4, 6⟩).year ≠ pyStr 5 := by
  constructor
  · decide
  · decide

theorem pyZfill_two_pyStr_length {n : Nat} (h : n < 100) :
    (pyZfill 2 (pyStr n)).data.length = 2 := by
  rw [pyZfill_data_length, pyStr_data_length]
  rcases Nat.eq_zero_or_pos n with h0 | h0
  · subst h0
    simp
  · have := (Nat.lt_pow_iff_log_lt (b := 10) (by omega) (by omega)).mp
      (show n < 10 ^ 2 by omega)
    omega

/-- C7 (amended): the external-update path overwrites all six entries
with `str(component).zfill(2)` — the five non-year components come out as
exactly two characters, while the year is zero-padded to two digits as
well and appears at its natural width only when it is at least 10. -/
theorem update_entries_spec (dt : DateTime) (hm : dt.month ≤ 12)
    (hd : dt.day ≤ 31) (hh : dt.hour ≤ 23) (hmi : dt.minute ≤ 59)
    (hs : dt.second ≤ 59) :
    (update_entries dt).year = pyZfill 2 (pyStr dt.year) ∧
    (update_entries dt).month = pyZfill 2 (pyStr dt.month) ∧
    (update_entries dt).day = pyZfill 2 (pyStr dt.day) ∧
    (update_entries dt).hour = pyZfill 2 (pyStr dt.hour) ∧
    (update_entries dt).minute = pyZfill 2 (pyStr dt.minute) ∧
    (update_entries dt).second = pyZfill 2 (pyStr dt.second) ∧
    (update_entries dt).month.data.length = 2 ∧
    (update_entries dt).day.data.length = 2 ∧
    (update_entries dt).hour.data.length = 2 ∧
    (update_entries dt).minute.data.length = 2 ∧
    (update_entries dt).second.data.length = 2 ∧
    (10 ≤ dt.year → (update_entries dt).year = pyStr dt.year) := by
  refine ⟨rfl, rfl, rfl, rfl, rfl, rfl,
    pyZfill_two_pyStr_length (by omega), pyZfill_two_pyStr_length (by omega),
    pyZfill_two_pyStr_length (by omega), pyZfill_two_pyStr_length (by omega),
    pyZfill_two_pyStr_length (by omega), ?_⟩
  intro hy
  exact pyZfill_eq_self
    (pyStr_data_length_of_ge (by omega) (by norm_num; omega))

theorem update_entries_spec_witness :
    2 ≤ 12 ∧ 29 ≤ 31 ∧ 23 ≤ 23 ∧ 59 ≤ 59 ∧ 59 ≤ 59 ∧
    ((update_entries ⟨2024, 2, 29, 23, 59, 59⟩).year =
        pyZfill 2 (pyStr 2024) ∧
     (update_entries ⟨2024, 2, 29, 23, 59, 59⟩).month =
        pyZfill 2 (pyStr 2) ∧
     (update_entries ⟨2024, 2, 29, 23, 59, 59⟩).day =
        pyZfill 2 (pyStr 29) ∧
     (update_entries ⟨2024, 2, 29, 23, 59, 59⟩).hour =
        pyZfill 2 (pyStr 23) ∧
     (update_entries ⟨2024, 2, 29, 23, 59, 59⟩).minute =
        pyZfill 2 (pyStr 59) ∧
     (update_entries ⟨2024, 2, 29, 23, 59, 59⟩).second =
        pyZfill 2 (pyStr 59) ∧
     (update_entries ⟨2024, 2, 29, 23, 59, 59⟩).month.data.length = 2 ∧
     (update_entries ⟨2024, 2, 29, 23, 59, 59⟩).day.data.length = 2 ∧
     (update_entries ⟨2024, 2, 29, 23, 59, 59⟩).hour.data.length = 2 ∧
     (update_entries ⟨2024, 2, 29, 23, 59, 59⟩).minute.data.length = 2 ∧
     (update_entries ⟨2024, 2, 29, 23, 59, 59⟩).second.data.length = 2 ∧
     (10 ≤ 2024 →
       (update_entries ⟨2024, 2, 29, 23, 59, 59⟩).year = pyStr 2024)) :=
  ⟨by decide, by decide, by decide, by decide, by decide,
    update_entries_spec ⟨2024, 2, 29, 23, 59, 59⟩ (by decide) (by decide)
      (by decide) (by decide) (by decide)⟩

/-- C8 counterexample: `DatetimeVar.set` on the structured value
2024-02-29 23:59:59 stores `isoformat()`, which uses the separator T — not
the space-separated canonical string the claim names. -/
theorem datetimevar_set_counterexample :
    DatetimeVar_set_dt ⟨2024, 2, 29, 23, 59, 59⟩ = "2024-02-29T23:59:59" ∧
      DatetimeVar_set_dt ⟨2024, 2, 29, 23, 59, 59⟩ ≠
        "2024-02-29 23:59:59" := by
  constructor
  · decide
  · decide

theorem spaceToT_pyZfill_pyStr (k n : Nat) :
    spaceToT (pyZfill k (pyStr n)) = pyZfill k (pyStr n) :=
  spaceToT_of_digits (pyZfill_digits k (pyStr_digits n))

/-- C8 (amended): a structured value is stored internally as the ISO-8601
string `YYYY-MM-DDTHH:MM:SS`, which is the canonical string
`YYYY-MM-DD HH:MM:SS` with its single space separator replaced by the
character T. -/
theorem datetimevar_set_spec (dt : DateTime) :
    DatetimeVar_set_dt dt =
      spaceToT (canonicalDatetimeString dt.year dt.month dt.day dt.hour
        dt.minute dt.second) := by
  have hdash : spaceToT "-" = "-" := by decide
  have hcolon : spaceToT ":" = ":" := by decide
  have hspace : spaceToT " " = "T" := by decide
  simp [canonicalDatetimeString, canonicalDatePart, canonicalTimePart,
    DatetimeVar_set_dt, pyIsoformat, spaceToT_append, spaceToT_pyZfill_pyStr,
    hdash, hcolon, hspace, String.append_assoc]

/-- C2: for every month in 1..12 and year at least 1, `days_in_month`
returns 30 for April, June, September, November, follows the Gregorian
leap rule for February, and returns 31 for every other month; the cited
concrete values also hold. -/
theorem days_in_month_spec (month year : Nat) (hm1 : 1 ≤ month)
    (hm2 : month ≤ 12) (hy : 1 ≤ year) :
    ((month = 4 ∨ month = 6 ∨ month = 9 ∨ month = 11) →
      days_in_month month year = 30) ∧
    (month = 2 →
      (((year % 4 = 0 ∧ year % 100 ≠ 0) ∨ year % 400 = 0) →
        days_in_month month year = 29) ∧
      (¬((year % 4 = 0 ∧ year % 100 ≠ 0) ∨ year % 400 = 0) →
        days_in_month month year = 28)) ∧
    ((month ≠ 2 ∧ month ≠ 4 ∧ month ≠ 6 ∧ month ≠ 9 ∧ month ≠ 11) →
      days_in_month month year = 31) ∧
    days_in_month 2 2000 = 29 ∧ days_in_month 2 1900 = 28 ∧
    days_in_month 2 2024 = 29 ∧ days_in_month 2 2023 = 28 ∧
    days_in_month 4 year = 30 ∧ days_in_month 1 year = 31 := by
  refine ⟨?_, ?_, ?_, by decide, by decide, by decide, by decide, ?_, ?_⟩
  · intro h
    simp [days_in_month, h]
  · intro h
    subst h
    constructor
    · intro hl
      simp [days_in_month, hl]
    · intro hl
      simp [days_in_month, hl]
  · intro h
    obtain ⟨h2, h4, h6, h9, h11⟩ := h
    simp [days_in_month, h2, h4, h6, h9, h11]
  · simp [days_in_month]
  · simp [days_in_month]

theorem days_in_month_spec_witness :
    1 ≤ 2 ∧ 2 ≤ 12 ∧ 1 ≤ 2000 ∧
      (((2 : Nat) = 4 ∨ (2 : Nat) = 6 ∨ (2 : Nat) = 9 ∨ (2 : Nat) = 11) →
        days_in_month 2 2000 = 30) ∧
      ((2 : Nat) = 2 →
        ((((2000 : Nat) % 4 = 0 ∧ (2000 : Nat) % 100 ≠ 0) ∨
            (2000 : Nat) % 400 = 0) → days_in_month 2 2000 = 29) ∧
        (¬(((2000 : Nat) % 4 = 0 ∧ (2000 : Nat) % 100 ≠ 0) ∨
            (2000 : Nat) % 400 = 0) → days_in_month 2 2000 = 28)) ∧
      (((2 : Nat) ≠ 2 ∧ (2 : Nat) ≠ 4 ∧ (2 : Nat) ≠ 6 ∧ (2 : Nat) ≠ 9 ∧
          (2 : Nat) ≠ 11) → days_in_month 2 2000 = 31) ∧
      days_in_month 2 2000 = 29 ∧ days_in_month 2 1900 = 28 ∧
      days_in_month 2 2024 = 29 ∧ days_in_month 2 2023 = 28 ∧
      days_in_month 4 2000 = 30 ∧ days_in_month 1 2000 = 31 :=
  ⟨by decide, by decide, by decide,
    days_in_month_spec 2 2000 (by decide) (by decide) (by decide)⟩
